import Mathlib

/-!
Verification of the appsnap window-capture tool.

This file gives a shallow embedding of the four Python modules of the
repository (`windows.py`, `capture.py`, `__main__.py`, `__init__.py`) and
proves or refutes the frozen specification claims against it.

Conventions:
* OS state (which handles are valid windows, their titles and rectangles,
  whether each fallible OS call raises) is passed in explicitly as data.
* Fallible Python code is modelled with `Option` / explicit error results,
  and the observable side effects of a run are collected in a trace list.
* Machine integers are modelled as `Int`/`Nat`; no overflow is relevant at
  the sizes involved (window coordinates, scores 0–100, exit codes).
-/

namespace Appsnap

/-! ## Data model: window rectangles and records (`windows.py`) -/

/-- A window bounding rectangle `(left, top, right, bottom)`, as returned by
`win32gui.GetWindowRect`. -/
structure Rect where
  left : Int
  top : Int
  right : Int
  bottom : Int
deriving DecidableEq, Repr

/-- A window record as built by `find_all_windows`: the dictionary
`{"handle": hwnd, "title": title, "bbox": (l, t, r, b)}`. -/
structure WindowRecord where
  handle : Nat
  title : String
  bbox : Rect
deriving DecidableEq, Repr

/-- The OS-side view of one top-level window presented to the enumerator:
the answers the `win32gui` primitives give for its handle.  `rectQuery =
none` models `GetWindowRect` raising for that window. -/
structure OSWin where
  handle : Nat
  isWindow : Bool
  isVisible : Bool
  title : String
  rectQuery : Option Rect
deriving DecidableEq, Repr

/-- `find_all_windows` from `windows.py`: keep each enumerated window that
is a valid window, visible, has a non-empty title, and whose rectangle
query succeeds with `right > left` and `bottom > top`; windows whose
rectangle query raises are silently skipped. -/
def find_all_windows : List OSWin → List WindowRecord
  | [] => []
  | w :: ws =>
    if w.isWindow && w.isVisible then
      if w.title.isEmpty then find_all_windows ws
      else
        match w.rectQuery with
        | some r =>
          if r.right > r.left && r.bottom > r.top then
            ⟨w.handle, w.title, r⟩ :: find_all_windows ws
          else find_all_windows ws
        | none => find_all_windows ws
    else find_all_windows ws

/-! ## Spec-modelled fuzzy scorer

The scoring function is `fuzzywuzzy.process.extractOne`'s default scorer
(WRatio); the library is an external dependency whose source is not under
`src/`, so the scorer is modelled from the spec. -/

/-- Strip leading and trailing spaces from a character list. -/
def stripSpaces (cs : List Char) : List Char :=
  ((cs.dropWhile (· = ' ')).reverse.dropWhile (· = ' ')).reverse

/-- Modelled from the spec: fuzzywuzzy's `full_process` string
normalisation (an external dependency, not under `src/`) — replace
non-alphanumeric characters with spaces, lower-case, and strip, giving the
case-insensitive preprocessing §4.2 requires of the scorer. -/
def full_process (s : String) : String :=
  ⟨stripSpaces (s.data.map fun c => if c.isAlphanum then c.toLower else ' ')⟩

/-- Levenshtein edit distance between two character lists. -/
def lev : List Char → List Char → Nat
  | [], ys => ys.length
  | x :: xs, [] => (x :: xs).length
  | x :: xs, y :: ys =>
    if x = y then lev xs ys
    else 1 + min (lev xs ys) (min (lev (x :: xs) ys) (lev xs (y :: ys)))
termination_by xs ys => (xs.length, ys.length)

/-- Similarity of two already-normalised strings: 100 exactly on equality,
otherwise an edit-distance ratio capped strictly below 100. -/
def wratioAux (a b : String) : Nat :=
  if a = b then 100
  else if a.length + b.length = 0 then 0
  else
    min 99
      (((a.length + b.length - min (lev a.data b.data) (a.length + b.length)) * 100) /
        (a.length + b.length))

/-- Modelled from the spec: the fuzzy similarity score (fuzzywuzzy
`WRatio`, an external dependency not under `src/`).  Per §4.2 and §8 the
scorer is case-insensitive, bounded to 0–100, monotonic with edit-distance
similarity, and an exact (case-insensitively normalised) match scores 100;
normalised-unequal strings score strictly below 100. -/
def wratio (query cand : String) : Nat :=
  wratioAux (full_process query) (full_process cand)

/-- One step of the best-so-far update in `extractOne`'s scan: adopt the
scored choice when there is no best yet or it strictly beats the best
(first-encountered highest score wins ties). -/
def extractStep (cS : String × Nat) : Option (String × Nat) → Option (String × Nat)
  | none => some cS
  | some (bc, bs) => if bs < cS.2 then some cS else some (bc, bs)

/-- Modelled from the spec: the selection loop of
`fuzzywuzzy.process.extractOne` (external dependency, not under `src/`) —
scan the choices, keeping the first-encountered highest-scoring choice
among those whose score is ≥ `cutoff` (an inclusive bound). -/
def extractOneGo (scorer : String → String → Nat) (query : String)
    (cutoff : Nat) : Option (String × Nat) → List String → Option (String × Nat)
  | best, [] => best
  | best, c :: cs =>
    extractOneGo scorer query cutoff
      (if cutoff ≤ scorer query c then extractStep (c, scorer query c) best else best) cs

/-- Modelled from the spec: `fuzzywuzzy.process.extractOne` with
`score_cutoff` (external dependency, not under `src/`). -/
def extractOne (scorer : String → String → Nat) (query : String)
    (choices : List String) (cutoff : Nat) : Option (String × Nat) :=
  extractOneGo scorer query cutoff none choices

/-! ## `find_window` (`windows.py`) -/

/-- Worker for `dictKeys`: `seen` holds the keys already inserted, and a
record whose title is already a key updates the value without moving the
key. -/
def dictKeysGo (seen : List String) : List WindowRecord → List String
  | [] => []
  | w :: ws =>
    if seen.contains w.title then dictKeysGo seen ws
    else w.title :: dictKeysGo (w.title :: seen) ws

/-- The key list of the Python dict `{w["title"]: w for w in windows}`:
titles in first-insertion order, deduplicated (later duplicates overwrite
the value but leave the key in place). -/
def dictKeys (ws : List WindowRecord) : List String := dictKeysGo [] ws

/-- Lookup in the Python dict `{w["title"]: w for w in windows}`:
last-writer-wins on duplicate titles. -/
def dictLookup (ws : List WindowRecord) (t : String) : Option WindowRecord :=
  (ws.reverse.find? fun w => w.title = t)

/-- The default `threshold` of `find_window`'s signature. -/
def defaultThreshold : Nat := 70

/-- `find_window` from `windows.py`, parameterised by the fuzzy scorer and
by the OS window set the enumerator sees: enumerate; return `none` on an
empty set; otherwise build the title→record dict and run `extractOne` over
its keys with `score_cutoff = threshold`, returning the dict entry for the
matched title. -/
def find_window (scorer : String → String → Nat) (ws : List OSWin)
    (window_name : String) (threshold : Nat) : Option WindowRecord :=
  let windows := find_all_windows ws
  if windows.isEmpty then none
  else
    match extractOne scorer window_name (dictKeys windows) threshold with
    | some (matched_title, _) => dictLookup windows matched_title
    | none => none

/-- `get_window_list_formatted` from `windows.py`: the sorted list of all
enumerated titles. -/
def get_window_list_formatted (ws : List OSWin) : List String :=
  ((find_all_windows ws).map WindowRecord.title).mergeSort (· ≤ ·)

/-! ## The Capture Engine (`capture.py`)

`capture_window hwnd output_path` is embedded as a function of an explicit
environment recording what each OS/library call would do on this run, and
it returns its outcome together with the trace of observable effects. -/

/-- Outcome of `PIL.ImageGrab.grab` in the fallback tier:
raise, return `None`, or return an image of the given pixel size. -/
inductive GrabOut
  | throws
  | noImage
  | image (w h : Nat)
deriving DecidableEq, Repr

/-- The behaviour of every fallible OS/library call `capture_window` makes
on one run, plus the window state its validation queries observe.  A `Bool`
field is `true` when the corresponding Python call completes without
raising. -/
structure CapEnv where
  isWindow : Bool
  isVisible : Bool
  isIconic : Bool
  rect : Rect
  getWindowDC_ok : Bool
  createDCFromHandle_ok : Bool
  createCompatibleDC_ok : Bool
  createBitmap_ok : Bool
  createCompatibleBitmap_ok : Bool
  selectObject_ok : Bool
  /-- `none` models `windll.user32.PrintWindow` raising; `some r` its
  return value. -/
  printWindow : Option Int
  getInfo_ok : Bool
  getBitmapBits_ok : Bool
  frombuffer_ok : Bool
  deleteObject_ok : Bool
  deleteDC_save_ok : Bool
  deleteDC_mfc_ok : Bool
  releaseDC_ok : Bool
  directSave_ok : Bool
  setForeground_ok : Bool
  grab : GrabOut
  fallbackSave_ok : Bool
  grabExnMsg : String
  fallbackSaveExnMsg : String
deriving DecidableEq, Repr

/-- Observable effects of a `capture_window` run, in order. -/
inductive Ev
  | mkdirParents
  | acquire (res : String)
  | release (res : String)
  | printWindowCall
  | setForegroundCall
  | sleepCall
  | grabCall
  | save
deriving DecidableEq, Repr

/-- Result of `capture_window`: normal return, or a raised `ValueError`
with its message. -/
inductive CapResult
  | ok
  | err (msg : String)
deriving DecidableEq, Repr

/-- The four-call cleanup block of the PrintWindow tier
(`DeleteObject`; `saveDC.DeleteDC`; `mfcDC.DeleteDC`; `ReleaseDC`).
Returns whether all four completed, and the release events of the calls
that ran before the first raising one. -/
def cleanupSeq (env : CapEnv) : Bool × List Ev :=
  if !env.deleteObject_ok then (false, [])
  else if !env.deleteDC_save_ok then (false, [.release "saveBitMap"])
  else if !env.deleteDC_mfc_ok then (false, [.release "saveBitMap", .release "saveDC"])
  else if !env.releaseDC_ok then
    (false, [.release "saveBitMap", .release "saveDC", .release "mfcDC"])
  else
    (true, [.release "saveBitMap", .release "saveDC", .release "mfcDC", .release "hwndDC"])

/-- The trace of the direct tier once all four resources are acquired and
`PrintWindow` has been called. -/
def preRenderTrace : List Ev :=
  [.acquire "hwndDC", .acquire "mfcDC", .acquire "saveDC", .acquire "saveBitMap",
   .printWindowCall]

/-- The PrintWindow (direct-capture) tier of `capture_window`: the body of
the first `try`.  Returns `true` iff the Python code returned from inside
the tier (successful save); `false` means control fell through to the
fallback, either by the `except Exception: pass` handler or by reaching
the end of the `try` block after `result == 0`. -/
def directTier (env : CapEnv) : Bool × List Ev :=
  if !env.getWindowDC_ok then (false, [])
  else if !env.createDCFromHandle_ok then (false, [.acquire "hwndDC"])
  else if !env.createCompatibleDC_ok then
    (false, [.acquire "hwndDC", .acquire "mfcDC"])
  else if !env.createBitmap_ok then
    (false, [.acquire "hwndDC", .acquire "mfcDC", .acquire "saveDC"])
  else if !env.createCompatibleBitmap_ok then
    (false, [.acquire "hwndDC", .acquire "mfcDC", .acquire "saveDC"])
  else if !env.selectObject_ok then
    (false, [.acquire "hwndDC", .acquire "mfcDC", .acquire "saveDC", .acquire "saveBitMap"])
  else
    match env.printWindow with
    | none => (false, preRenderTrace)
    | some result =>
      if result ≠ 0 then
        if !env.getInfo_ok then (false, preRenderTrace)
        else if !env.getBitmapBits_ok then (false, preRenderTrace)
        else if !env.frombuffer_ok then (false, preRenderTrace)
        else if !(cleanupSeq env).1 then (false, preRenderTrace ++ (cleanupSeq env).2)
        else if !env.directSave_ok then (false, preRenderTrace ++ (cleanupSeq env).2)
        else (true, preRenderTrace ++ (cleanupSeq env).2 ++ [.save])
      else (false, preRenderTrace ++ (cleanupSeq env).2)

/-- The fallback tier's trace up to and including its single
`ImageGrab.grab` call: the best-effort `SetForegroundWindow` (with the
compositor pause only when that call succeeds) followed by the grab. -/
def preGrabTrace (env : CapEnv) : List Ev :=
  (if env.setForeground_ok then [Ev.setForegroundCall, Ev.sleepCall]
   else [Ev.setForegroundCall]) ++ [Ev.grabCall]

/-- The ImageGrab fallback tier of `capture_window`: best-effort
`SetForegroundWindow` plus pause, one `ImageGrab.grab` of the window's
rectangle, emptiness check, and save; any failure is re-raised as
`ValueError("Failed to capture window: ...")` wrapping the cause. -/
def regionFallbackGrab (env : CapEnv) : GrabOut → CapResult × List Ev
  | .throws => (.err ("Failed to capture window: " ++ env.grabExnMsg), preGrabTrace env)
  | .noImage => (.err "Failed to capture window: Captured image is empty", preGrabTrace env)
  | .image w h =>
    if w = 0 || h = 0 then
      (.err "Failed to capture window: Captured image is empty", preGrabTrace env)
    else if !env.fallbackSave_ok then
      (.err ("Failed to capture window: " ++ env.fallbackSaveExnMsg), preGrabTrace env)
    else (.ok, preGrabTrace env ++ [.save])

/-- The fallback tier applied to this run's grab outcome. -/
def regionFallback (env : CapEnv) : CapResult × List Ev :=
  regionFallbackGrab env env.grab

/-- `capture_window` from `capture.py`: validate the window (valid and
visible, not minimized, positive dimensions), create the output's parent
directories, then try the PrintWindow tier and, if it did not return, the
ImageGrab fallback tier. -/
def capture_window (env : CapEnv) : CapResult × List Ev :=
  if !(env.isWindow && env.isVisible) then
    (.err "Window is not visible or invalid handle", [])
  else if env.isIconic then
    (.err "Window is minimized - cannot capture", [])
  else
    let width := env.rect.right - env.rect.left
    let height := env.rect.bottom - env.rect.top
    if width ≤ 0 || height ≤ 0 then
      (.err ("Invalid window dimensions: " ++ toString width ++ "x" ++ toString height), [])
    else if (directTier env).1 then
      (.ok, Ev.mkdirParents :: (directTier env).2)
    else
      ((regionFallback env).1,
        Ev.mkdirParents :: ((directTier env).2 ++ (regionFallback env).2))

/-! ## Module structure facts (`capture.py`, `windows.py`, `__main__.py`)

The inter-module wiring that the orchestrator claims depend on: which
names each module defines, imports and calls at top level. -/

/-- The top-level function names defined by `capture.py`. -/
def capture_module_defs : List String := ["capture_window", "validate_output_path"]

/-- The names `__main__.py` imports from `appsnap.capture`
(`from appsnap.capture import capture_region, validate_output_path`). -/
def main_capture_imports : List String := ["capture_region", "validate_output_path"]

/-- Which datum of the resolved window record the CLI passes as the first
argument of its capture call. -/
inductive CaptureArgKind
  | handleArg
  | bboxArg
deriving DecidableEq, Repr

/-- The callee name of the capture call inside `__main__.capture_window`:
`capture_region(window["bbox"], output_path)`. -/
def cli_capture_callee : String := "capture_region"

/-- The first argument of that call: the record's `bbox`, not its handle. -/
def cli_capture_arg : CaptureArgKind := .bboxArg

/-- A top-level statement of a Python module. -/
inductive TopStmt
  | importStmt (mod : String)
  | defStmt (name : String)
  | assignStmt (name : String)
  | callStmt (fn : String)
deriving DecidableEq, Repr

/-- The top-level statements of `windows.py`, in order: imports, the DPI
constant, four function definitions, and a module-level call of
`setup_dpi_awareness()` as the final statement. -/
def windows_module_toplevel : List TopStmt :=
  [.importStmt "ctypes", .importStmt "typing", .importStmt "win32gui",
   .importStmt "fuzzywuzzy", .assignStmt "PROCESS_PER_MONITOR_DPI_AWARE",
   .defStmt "setup_dpi_awareness", .defStmt "find_all_windows",
   .defStmt "find_window", .defStmt "get_window_list_formatted",
   .callStmt "setup_dpi_awareness"]

/-- Every appsnap function invoked anywhere in the body of `__main__.py`
(the CLI orchestrator). -/
def main_module_called_functions : List String :=
  ["get_window_list_formatted", "find_window", "validate_output_path",
   "capture_region", "generate_temp_path", "list_windows", "capture_window"]

/-! ## DPI-awareness initialization (`windows.py`) -/

/-- The process DPI-awareness state the `SetProcessDpiAwareness` /
`SetProcessDPIAware` calls act upon. -/
structure DpiState where
  perMonitorAware : Bool
  systemAware : Bool
deriving DecidableEq, Repr

/-- `setup_dpi_awareness` from `windows.py`, as a transition on process
DPI state: try `shcore.SetProcessDpiAwareness(PROCESS_PER_MONITOR_DPI_AWARE)`
and, if that call raises (shcore unavailable on older Windows), fall back
to `user32.SetProcessDPIAware()`.  Either way the function returns
normally. -/
def setup_dpi_awareness (shcoreAvailable : Bool) (s : DpiState) : DpiState :=
  if shcoreAvailable then { s with perMonitorAware := true }
  else { s with systemAware := true }

/-! ## The CLI orchestrator (`__main__.py`)

`main` is embedded up to (and excluding) the call into the capture stage:
its argument-validation prefix and the `--list` path are modelled in full,
and reaching the capture stage is marked `proceededToCapture` (the first
action of that stage is the `find_window` window query; the stage itself
calls `capture_region`, a name `capture.py` does not define — see the
module structure facts above). -/

/-- An observable CLI effect: a window query (any call into the
enumerator), a stdout line, a stderr line, or argparse help on stdout. -/
inductive MainEv
  | windowQuery
  | stdoutLine (s : String)
  | stderrLine (s : String)
  | helpStdout
deriving DecidableEq, Repr

/-- Outcome of a `main` run: `sys.exit(code)` after the listed effects, or
control reaching the capture stage. -/
inductive MainOutcome
  | exited (code : Nat) (evs : List MainEv)
  | proceededToCapture (evs : List MainEv)
deriving DecidableEq, Repr

/-- The events of a `MainOutcome`. -/
def mainEvents : MainOutcome → List MainEv
  | .exited _ evs => evs
  | .proceededToCapture evs => evs

/-- Whether a CLI event list contains any stderr output. -/
def hasStderr (evs : List MainEv) : Bool :=
  evs.any fun e => match e with | .stderrLine _ => true | _ => false

/-- The parsed CLI arguments (argparse namespace). -/
structure Args where
  window_name : Option String
  list : Bool
  output : Option String
  threshold : Int
  json : Bool
deriving DecidableEq, Repr

/-- Python truthiness of `args.window_name` in `if not args.window_name`:
falsy when the positional was absent or the empty string. -/
def optStrFalsy : Option String → Bool
  | none => true
  | some s => s.isEmpty

/-- `list_windows` from `__main__.py`: query and sort the titles; with
none, print `No windows found.` to stderr and exit 1; otherwise print the
count header and one bulleted title per line to stdout and exit 0. -/
def list_windows (ws : List OSWin) : Nat × List MainEv :=
  let titles := get_window_list_formatted ws
  if titles.isEmpty then (1, [.windowQuery, .stderrLine "No windows found."])
  else
    (0, [MainEv.windowQuery,
         .stdoutLine ("Found " ++ toString titles.length ++ " window(s):")] ++
        titles.map fun t => MainEv.stdoutLine ("  â€¢ " ++ t))

/-- `main` from `__main__.py` after argument parsing: handle `--list`,
then the missing-window-name check (argparse help to stdout, exit 1), then
the threshold range check (error line to stderr, exit 1), and otherwise
proceed into the capture stage. -/
def main (ws : List OSWin) (args : Args) : MainOutcome :=
  if args.list then
    let (code, evs) := list_windows ws
    .exited code evs
  else if optStrFalsy args.window_name then
    .exited 1 [.helpStdout]
  else if args.threshold < 0 || 100 < args.threshold then
    .exited 1 [.stderrLine "Error: Threshold must be between 0 and 100"]
  else
    .proceededToCapture []

/-! ## Helper lemmas -/

theorem wratioAux_le_100 (a b : String) : wratioAux a b ≤ 100 := by
  unfold wratioAux
  split_ifs with h1 h2
  · exact le_refl _
  · exact Nat.zero_le _
  · exact le_trans (Nat.min_le_left _ _) (by omega)

theorem wratioAux_eq_100 {a b : String} (h : wratioAux a b = 100) : a = b := by
  by_contra hne
  unfold wratioAux at h
  rw [if_neg hne] at h
  have hmin := Nat.min_le_left 99
    (((a.length + b.length - min (lev a.data b.data) (a.length + b.length)) * 100) /
      (a.length + b.length))
  split_ifs at h
  omega

theorem wratio_le_100 (q t : String) : wratio q t ≤ 100 := wratioAux_le_100 _ _

theorem wratio_eq_100 {q t : String} (h : wratio q t = 100) :
    full_process q = full_process t := wratioAux_eq_100 h

/-- If the accumulator is empty and every remaining choice scores below
the cutoff, the scan produces no match. -/
theorem extractOneGo_none (scorer : String → String → Nat) (q : String) (cutoff : Nat) :
    ∀ cs : List String, (∀ c ∈ cs, scorer q c < cutoff) →
      extractOneGo scorer q cutoff none cs = none := by
  intro cs
  induction cs with
  | nil => intro _; rfl
  | cons c cs ih =>
    intro h
    have hc : ¬ cutoff ≤ scorer q c := by
      have := h c (List.mem_cons_self _ _)
      omega
    simp only [extractOneGo, if_neg hc]
    exact ih fun c' hc' => h c' (List.mem_cons_of_mem _ hc')

/-- What a successful scan guarantees: the returned score is the choice's
own score, meets the cutoff, the returned choice came from the accumulator
or the list, and its score dominates every scanned score and the
accumulator's. -/
theorem extractOneGo_some (scorer : String → String → Nat) (q : String) (cutoff : Nat) :
    ∀ (cs : List String) (best : Option (String × Nat)) (t : String) (s : Nat),
      extractOneGo scorer q cutoff best cs = some (t, s) →
      (∀ bc bs, best = some (bc, bs) → bs = scorer q bc ∧ cutoff ≤ bs) →
      s = scorer q t ∧ cutoff ≤ s ∧ (best = some (t, s) ∨ t ∈ cs) ∧
        (∀ c ∈ cs, scorer q c ≤ s) ∧
        (∀ bc bs, best = some (bc, bs) → bs ≤ s) := by
  intro cs
  induction cs with
  | nil =>
    intro best t s hres hbest
    simp only [extractOneGo] at hres
    subst hres
    obtain ⟨h1, h2⟩ := hbest t s rfl
    refine ⟨h1, h2, Or.inl rfl, by simp, ?_⟩
    intro bc bs h
    injection h with h
    cases h
    exact le_refl _
  | cons c cs ih =>
    intro best t s hres hbest
    simp only [extractOneGo] at hres
    by_cases hc : cutoff ≤ scorer q c
    · rw [if_pos hc] at hres
      have hbest' : ∀ bc bs, extractStep (c, scorer q c) best = some (bc, bs) →
          bs = scorer q bc ∧ cutoff ≤ bs := by
        intro bc bs h
        cases best with
        | none =>
          simp only [extractStep] at h
          injection h with h
          cases h
          exact ⟨rfl, hc⟩
        | some p =>
          obtain ⟨bc0, bs0⟩ := p
          obtain ⟨hb1, hb2⟩ := hbest bc0 bs0 rfl
          simp only [extractStep] at h
          split_ifs at h
          · injection h with h
            cases h
            exact ⟨rfl, hc⟩
          · injection h with h
            cases h
            exact ⟨hb1, hb2⟩
      obtain ⟨h1, h2, h3, h4, h5⟩ := ih (extractStep (c, scorer q c) best) t s hres hbest'
      refine ⟨h1, h2, ?_, ?_, ?_⟩
      · rcases h3 with h3 | h3
        · cases best with
          | none =>
            simp only [extractStep] at h3
            injection h3 with h3
            rw [Prod.mk.injEq] at h3
            exact Or.inr (h3.1 ▸ List.mem_cons_self _ _)
          | some p =>
            obtain ⟨bc0, bs0⟩ := p
            simp only [extractStep] at h3
            split_ifs at h3
            · injection h3 with h3
              rw [Prod.mk.injEq] at h3
              exact Or.inr (h3.1 ▸ List.mem_cons_self _ _)
            · exact Or.inl h3
        · exact Or.inr (List.mem_cons_of_mem _ h3)
      · intro c' hc'
        rcases List.mem_cons.mp hc' with rfl | h'
        · cases best with
          | none => exact h5 c' (scorer q c') rfl
          | some p =>
            obtain ⟨bc0, bs0⟩ := p
            by_cases hlt : bs0 < scorer q c'
            · exact h5 c' (scorer q c')
                (by simp only [extractStep]; rw [if_pos hlt])
            · have hb := h5 bc0 bs0 (by simp only [extractStep]; rw [if_neg hlt])
              omega
        · exact h4 c' h'
      · intro bc bs h
        cases best with
        | none => cases h
        | some p =>
          obtain ⟨bc0, bs0⟩ := p
          injection h with h
          rw [Prod.mk.injEq] at h
          obtain ⟨h1', h2'⟩ := h
          subst h1'
          subst h2'
          by_cases hlt : bs0 < scorer q c
          · have := h5 c (scorer q c) (by simp only [extractStep]; rw [if_pos hlt])
            omega
          · exact h5 bc0 bs0 (by simp only [extractStep]; rw [if_neg hlt])
    · rw [if_neg hc] at hres
      obtain ⟨h1, h2, h3, h4, h5⟩ := ih best t s hres hbest
      refine ⟨h1, h2, ?_, ?_, h5⟩
      · rcases h3 with h3 | h3
        · exact Or.inl h3
        · exact Or.inr (List.mem_cons_of_mem _ h3)
      · intro c' hc'
        rcases List.mem_cons.mp hc' with rfl | h'
        · omega
        · exact h4 c' h'

theorem dictKeysGo_mem {t : String} :
    ∀ (ws : List WindowRecord) (seen : List String),
      t ∈ dictKeysGo seen ws → ∃ r ∈ ws, r.title = t := by
  intro ws
  induction ws with
  | nil => intro seen h; cases h
  | cons w ws ih =>
    intro seen h
    simp only [dictKeysGo] at h
    split_ifs at h
    · obtain ⟨r, hr, ht⟩ := ih _ h
      exact ⟨r, List.mem_cons_of_mem _ hr, ht⟩
    · rcases List.mem_cons.mp h with rfl | hmem
      · exact ⟨w, List.mem_cons_self _ _, rfl⟩
      · obtain ⟨r, hr, ht⟩ := ih _ hmem
        exact ⟨r, List.mem_cons_of_mem _ hr, ht⟩

/-- Every dict key is the title of some record. -/
theorem dictKeys_mem {ws : List WindowRecord} {t : String} (h : t ∈ dictKeys ws) :
    ∃ r ∈ ws, r.title = t :=
  dictKeysGo_mem ws [] h

/-- `extractStep` never discards an available match. -/
theorem extractStep_isSome (cS : String × Nat) (best : Option (String × Nat)) :
    (extractStep cS best).isSome = true := by
  cases best with
  | none => rfl
  | some p =>
    obtain ⟨bc, bs⟩ := p
    simp only [extractStep]
    split_ifs <;> rfl

/-- The scan returns a match whenever some choice meets the cutoff or a
best-so-far already exists. -/
theorem extractOneGo_isSome (scorer : String → String → Nat) (q : String) (cutoff : Nat) :
    ∀ (cs : List String) (best : Option (String × Nat)),
      ((∃ c ∈ cs, cutoff ≤ scorer q c) ∨ best.isSome = true) →
      (extractOneGo scorer q cutoff best cs).isSome = true := by
  intro cs
  induction cs with
  | nil =>
    intro best h
    rcases h with ⟨c, hc, -⟩ | h
    · cases hc
    · exact h
  | cons c cs ih =>
    intro best h
    simp only [extractOneGo]
    by_cases hc : cutoff ≤ scorer q c
    · rw [if_pos hc]
      exact ih _ (Or.inr (extractStep_isSome _ _))
    · rw [if_neg hc]
      refine ih _ ?_
      rcases h with ⟨c', hc', hs'⟩ | h
      · rcases List.mem_cons.mp hc' with rfl | hmem
        · exact absurd hs' hc
        · exact Or.inl ⟨c', hmem, hs'⟩
      · exact Or.inr h

/-- The dict lookup succeeds for any title carried by a member record. -/
theorem dictLookup_isSome {ws : List WindowRecord} {t : String}
    (h : ∃ r ∈ ws, r.title = t) : (dictLookup ws t).isSome = true := by
  unfold dictLookup
  rw [List.find?_isSome]
  obtain ⟨r, hr, ht⟩ := h
  exact ⟨r, List.mem_reverse.mpr hr, by simp [ht]⟩

/-- A successful dict lookup returns a member record carrying the looked-up
title. -/
theorem dictLookup_mem {ws : List WindowRecord} {t : String} {r : WindowRecord}
    (h : dictLookup ws t = some r) : r ∈ ws ∧ r.title = t := by
  unfold dictLookup at h
  refine ⟨List.mem_reverse.mp (List.mem_of_find?_eq_some h), ?_⟩
  have := List.find?_some h
  exact of_decide_eq_true this

theorem cleanupSeq_no_grab (env : CapEnv) : Ev.grabCall ∉ (cleanupSeq env).2 := by
  unfold cleanupSeq
  split_ifs <;> simp

theorem cleanupSeq_no_print (env : CapEnv) : Ev.printWindowCall ∉ (cleanupSeq env).2 := by
  unfold cleanupSeq
  split_ifs <;> simp

/-- The direct tier's trace is one of eight shapes: an acquisition prefix
(exception before or at `PrintWindow`), the full pre-render trace, or the
pre-render trace followed by the cleanup releases and possibly the save. -/
theorem directTier_trace_cases (env : CapEnv) :
    (directTier env).2 = [] ∨
    (directTier env).2 = [.acquire "hwndDC"] ∨
    (directTier env).2 = [.acquire "hwndDC", .acquire "mfcDC"] ∨
    (directTier env).2 = [.acquire "hwndDC", .acquire "mfcDC", .acquire "saveDC"] ∨
    (directTier env).2 =
      [.acquire "hwndDC", .acquire "mfcDC", .acquire "saveDC", .acquire "saveBitMap"] ∨
    (directTier env).2 = preRenderTrace ∨
    (directTier env).2 = preRenderTrace ++ (cleanupSeq env).2 ∨
    (directTier env).2 = preRenderTrace ++ (cleanupSeq env).2 ++ [.save] := by
  unfold directTier
  cases h1 : env.getWindowDC_ok with
  | false => simp [h1]
  | true =>
  cases h2 : env.createDCFromHandle_ok with
  | false => simp [h1, h2]
  | true =>
  cases h3 : env.createCompatibleDC_ok with
  | false => simp [h1, h2, h3]
  | true =>
  cases h4 : env.createBitmap_ok with
  | false => simp [h1, h2, h3, h4]
  | true =>
  cases h5 : env.createCompatibleBitmap_ok with
  | false => simp [h1, h2, h3, h4, h5]
  | true =>
  cases h6 : env.selectObject_ok with
  | false => simp [h1, h2, h3, h4, h5, h6]
  | true =>
  cases h7 : env.printWindow with
  | none => simp [h1, h2, h3, h4, h5, h6, h7]
  | some r =>
  by_cases h8 : r = 0
  · simp [h1, h2, h3, h4, h5, h6, h7, h8]
  · cases h9 : env.getInfo_ok with
    | false => simp [h1, h2, h3, h4, h5, h6, h7, h8, h9]
    | true =>
    cases h10 : env.getBitmapBits_ok with
    | false => simp [h1, h2, h3, h4, h5, h6, h7, h8, h9, h10]
    | true =>
    cases h11 : env.frombuffer_ok with
    | false => simp [h1, h2, h3, h4, h5, h6, h7, h8, h9, h10, h11]
    | true =>
    cases h12 : (cleanupSeq env).1 with
    | false => simp [h1, h2, h3, h4, h5, h6, h7, h8, h9, h10, h11, h12]
    | true =>
    cases h13 : env.directSave_ok with
    | false => simp [h1, h2, h3, h4, h5, h6, h7, h8, h9, h10, h11, h12, h13]
    | true => simp [h1, h2, h3, h4, h5, h6, h7, h8, h9, h10, h11, h12, h13]

theorem directTier_no_grab (env : CapEnv) : Ev.grabCall ∉ (directTier env).2 := by
  have hc := cleanupSeq_no_grab env
  rcases directTier_trace_cases env with h | h | h | h | h | h | h | h <;> rw [h] <;>
    simp [preRenderTrace] <;> exact hc

theorem directTier_print_count (env : CapEnv) :
    List.count Ev.printWindowCall (directTier env).2 ≤ 1 := by
  have hc := List.count_eq_zero.mpr (cleanupSeq_no_print env)
  rcases directTier_trace_cases env with h | h | h | h | h | h | h | h <;> rw [h] <;>
    simp [preRenderTrace, List.count_append, hc]

/-- The fallback tier's trace is the pre-grab trace, possibly followed by
the save. -/
theorem regionFallback_trace_cases (env : CapEnv) :
    (regionFallback env).2 = preGrabTrace env ∨
    (regionFallback env).2 = preGrabTrace env ++ [Ev.save] := by
  unfold regionFallback
  cases hg : env.grab with
  | throws => exact Or.inl rfl
  | noImage => exact Or.inl rfl
  | image w h =>
    simp only [regionFallbackGrab]
    split_ifs <;> simp

theorem preGrabTrace_no_print (env : CapEnv) :
    Ev.printWindowCall ∉ preGrabTrace env := by
  unfold preGrabTrace
  split_ifs <;> simp

theorem preGrabTrace_grab_count (env : CapEnv) :
    List.count Ev.grabCall (preGrabTrace env) = 1 := by
  unfold preGrabTrace
  split_ifs <;> rfl

theorem regionFallback_no_print (env : CapEnv) :
    Ev.printWindowCall ∉ (regionFallback env).2 := by
  have hg := preGrabTrace_no_print env
  rcases regionFallback_trace_cases env with h | h <;> rw [h]
  · exact hg
  · intro hc
    rcases List.mem_append.mp hc with hc | hc
    · exact hg hc
    · simp at hc

theorem regionFallback_grab_count (env : CapEnv) :
    List.count Ev.grabCall (regionFallback env).2 = 1 := by
  have hg := preGrabTrace_grab_count env
  rcases regionFallback_trace_cases env with h | h <;> rw [h]
  · exact hg
  · rw [List.count_append, hg]
    rfl

/-- The fallback tier either succeeds or fails with a `ValueError` whose
message wraps the underlying cause. -/
theorem regionFallback_res_cases (env : CapEnv) :
    (regionFallback env).1 = CapResult.ok ∨
    ∃ cause, (regionFallback env).1 =
      CapResult.err ("Failed to capture window: " ++ cause) := by
  unfold regionFallback
  cases hg : env.grab with
  | throws => exact Or.inr ⟨env.grabExnMsg, rfl⟩
  | noImage => exact Or.inr ⟨"Captured image is empty", rfl⟩
  | image w h =>
    simp only [regionFallbackGrab]
    split_ifs
    · exact Or.inr ⟨"Captured image is empty", rfl⟩
    · exact Or.inr ⟨env.fallbackSaveExnMsg, rfl⟩
    · exact Or.inl rfl

theorem regionFallback_err_wraps (env : CapEnv) (msg : String)
    (h : (regionFallback env).1 = CapResult.err msg) :
    ∃ cause, msg = "Failed to capture window: " ++ cause := by
  rcases regionFallback_res_cases env with hok | ⟨cause, herr⟩
  · rw [hok] at h
    cases h
  · rw [herr] at h
    injection h with h
    exact ⟨cause, h.symm⟩

/-- The run of `capture_window` past all validation checks. -/
theorem capture_window_after_checks (env : CapEnv)
    (hW : env.isWindow = true) (hV : env.isVisible = true) (hI : env.isIconic = false)
    (hw : 0 < env.rect.right - env.rect.left) (hh : 0 < env.rect.bottom - env.rect.top) :
    capture_window env =
      if (directTier env).1 then (CapResult.ok, Ev.mkdirParents :: (directTier env).2)
      else ((regionFallback env).1,
        Ev.mkdirParents :: ((directTier env).2 ++ (regionFallback env).2)) := by
  have hd : ¬(env.rect.right - env.rect.left ≤ 0 ∨ env.rect.bottom - env.rect.top ≤ 0) := by
    omega
  have hd' : ¬(env.rect.right ≤ env.rect.left ∨ env.rect.bottom ≤ env.rect.top) := by
    omega
  simp [capture_window, hW, hV, hI, hd, hd']

/-! ## Claims -/

/-- C1: the claim says the CLI orchestrator invokes the two-tier Capture
Engine `capture_window(handle, path)` whenever the resolver matches.  The
code instead imports and calls `capture_region` — a name `capture.py` does
not define, so the import fails — and passes the record's `bbox`, not its
handle.  This theorem records the divergence: the orchestrator's capture
callee is among its imports from `appsnap.capture` but is not defined
there, is not the two-tier `capture_window`, and receives the bbox rather
than the window handle. -/
theorem cli_capture_wiring_bug :
    cli_capture_callee ∈ main_capture_imports ∧
    cli_capture_callee ∉ capture_module_defs ∧
    cli_capture_callee ≠ "capture_window" ∧
    cli_capture_arg ≠ CaptureArgKind.handleArg := by decide

/-- C7 counterexample: the claim says DPI initialization is an explicit
orchestrator-invoked step and not a module-import side effect; in the code
`setup_dpi_awareness()` is a top-level statement of `windows.py` and the
orchestrator never calls it. -/
theorem dpi_init_is_import_side_effect :
    TopStmt.callStmt "setup_dpi_awareness" ∈ windows_module_toplevel ∧
    "setup_dpi_awareness" ∉ main_module_called_functions := by decide

/-- C7 amended: DPI initialization runs as the final top-level statement
of `windows.py` — a module-import side effect, so it still precedes any
enumeration or capture call made through that module — and the
initialization step itself is idempotent. -/
theorem dpi_init_amended :
    windows_module_toplevel.getLast? = some (TopStmt.callStmt "setup_dpi_awareness") ∧
    ∀ (shcoreAvailable : Bool) (s : DpiState),
      setup_dpi_awareness shcoreAvailable (setup_dpi_awareness shcoreAvailable s) =
        setup_dpi_awareness shcoreAvailable s := by
  refine ⟨by decide, ?_⟩
  intro av s
  cases av <;> simp [setup_dpi_awareness]

/-- C9: every record the enumerator outputs has a non-empty title and a
bounds rectangle with positive width and height, and it stems from an
enumerated window that is valid, visible, and whose rectangle query
succeeded; all other windows are excluded without error. -/
theorem enumerator_invariant (ws : List OSWin) (r : WindowRecord)
    (h : r ∈ find_all_windows ws) :
    r.title ≠ "" ∧ r.bbox.left < r.bbox.right ∧ r.bbox.top < r.bbox.bottom ∧
    ∃ w ∈ ws, w.isWindow = true ∧ w.isVisible = true ∧
      w.handle = r.handle ∧ w.title = r.title ∧ w.rectQuery = some r.bbox := by
  induction ws with
  | nil => cases h
  | cons w ws ih =>
    unfold find_all_windows at h
    by_cases hvw : (w.isWindow && w.isVisible) = true
    · rw [if_pos hvw] at h
      rw [Bool.and_eq_true] at hvw
      obtain ⟨hW, hV⟩ := hvw
      have hvw : (w.isWindow && w.isVisible) = true := by simp [hW, hV]
      by_cases ht : w.title.isEmpty
      · rw [if_pos ht] at h
        obtain ⟨h1, h2, h3, w', hw', hrest⟩ := ih h
        exact ⟨h1, h2, h3, w', List.mem_cons_of_mem _ hw', hrest⟩
      · rw [if_neg ht] at h
        cases hq : w.rectQuery with
        | none =>
          rw [hq] at h
          obtain ⟨h1, h2, h3, w', hw', hrest⟩ := ih h
          exact ⟨h1, h2, h3, w', List.mem_cons_of_mem _ hw', hrest⟩
        | some rect =>
          rw [hq] at h
          simp only [] at h
          by_cases hdim : (rect.right > rect.left && rect.bottom > rect.top) = true
          · rw [if_pos hdim] at h
            rcases List.mem_cons.mp h with heq | hmem
            · subst heq
              rw [Bool.and_eq_true] at hdim
              obtain ⟨hd1, hd2⟩ := hdim
              refine ⟨?_, by simpa using of_decide_eq_true hd1,
                      by simpa using of_decide_eq_true hd2,
                      w, List.mem_cons_self _ _, hW, hV, rfl, rfl, hq⟩
              intro hempty
              exact ht (by simp only [String.isEmpty_iff]; exact hempty)
            · obtain ⟨h1, h2, h3, w', hw', hrest⟩ := ih hmem
              exact ⟨h1, h2, h3, w', List.mem_cons_of_mem _ hw', hrest⟩
          · rw [if_neg hdim] at h
            obtain ⟨h1, h2, h3, w', hw', hrest⟩ := ih h
            exact ⟨h1, h2, h3, w', List.mem_cons_of_mem _ hw', hrest⟩
    · rw [if_neg hvw] at h
      obtain ⟨h1, h2, h3, w', hw', hrest⟩ := ih h
      exact ⟨h1, h2, h3, w', List.mem_cons_of_mem _ hw', hrest⟩

/-- A concrete OS window set exercising the enumerator: one good window
among an invisible one, an untitled one, a degenerate one and one whose
rectangle query raises. -/
def sampleWins : List OSWin :=
  [⟨10, true, false, "Hidden", some ⟨0, 0, 5, 5⟩⟩,
   ⟨11, true, true, "", some ⟨0, 0, 5, 5⟩⟩,
   ⟨12, true, true, "Degenerate", some ⟨3, 3, 3, 9⟩⟩,
   ⟨13, true, true, "Raises", none⟩,
   ⟨14, true, true, "Calculator", some ⟨2, 4, 300, 200⟩⟩]

/-- Witness for C9 at a concrete window set. -/
theorem enumerator_invariant_witness :
    (⟨14, "Calculator", ⟨2, 4, 300, 200⟩⟩ : WindowRecord) ∈ find_all_windows sampleWins ∧
    ((⟨14, "Calculator", ⟨2, 4, 300, 200⟩⟩ : WindowRecord).title ≠ "" ∧
      (2 : Int) < 300 ∧ (4 : Int) < 200 ∧
      ∃ w ∈ sampleWins, w.isWindow = true ∧ w.isVisible = true ∧
        w.handle = 14 ∧ w.title = "Calculator" ∧ w.rectQuery = some ⟨2, 4, 300, 200⟩) :=
  ⟨by decide, by
    have := enumerator_invariant sampleWins ⟨14, "Calculator", ⟨2, 4, 300, 200⟩⟩ (by decide)
    exact this⟩

/-- C4: the resolver returns `none` immediately on an empty enumeration;
any returned record is an enumerated record, is the last-writer-wins dict
entry for its title, scores at least `threshold` (an inclusive bound — the
default is 70), and its title's score dominates every dict key's score; if
every key scores strictly below the threshold the resolver returns `none`;
and conversely, whenever some key's score meets the threshold, a record is
returned — so a match comes back exactly when the highest score is ≥ the
threshold. -/
theorem find_window_characterisation (scorer : String → String → Nat)
    (ws : List OSWin) (name : String) (threshold : Nat) :
    defaultThreshold = 70 ∧
    (find_all_windows ws = [] → find_window scorer ws name threshold = none) ∧
    (∀ r, find_window scorer ws name threshold = some r →
      r ∈ find_all_windows ws ∧
      dictLookup (find_all_windows ws) r.title = some r ∧
      threshold ≤ scorer name r.title ∧
      ∀ t ∈ dictKeys (find_all_windows ws), scorer name t ≤ scorer name r.title) ∧
    ((∀ t ∈ dictKeys (find_all_windows ws), scorer name t < threshold) →
      find_window scorer ws name threshold = none) ∧
    ((∃ t ∈ dictKeys (find_all_windows ws), threshold ≤ scorer name t) →
      ∃ r, find_window scorer ws name threshold = some r) := by
  refine ⟨rfl, ?_, ?_, ?_, ?_⟩
  · intro h
    simp [find_window, h]
  · intro r hr
    unfold find_window at hr
    by_cases he : (find_all_windows ws).isEmpty
    · rw [if_pos he] at hr
      cases hr
    · rw [if_neg he] at hr
      cases hx : extractOne scorer name (dictKeys (find_all_windows ws)) threshold with
      | none => rw [hx] at hr; cases hr
      | some p =>
        obtain ⟨t, s⟩ := p
        rw [hx] at hr
        obtain ⟨hmem, htitle⟩ := dictLookup_mem hr
        obtain ⟨hs, hcut, -, hall, -⟩ :=
          extractOneGo_some scorer name threshold (dictKeys (find_all_windows ws))
            none t s hx (by intro bc bs h; cases h)
        subst htitle
        exact ⟨hmem, hr, hs ▸ hcut, fun t' ht' => hs ▸ hall t' ht'⟩
  · intro hall
    unfold find_window
    by_cases he : (find_all_windows ws).isEmpty
    · rw [if_pos he]
    · rw [if_neg he]
      have hx : extractOne scorer name (dictKeys (find_all_windows ws)) threshold = none :=
        extractOneGo_none scorer name threshold (dictKeys (find_all_windows ws)) hall
      rw [hx]
  · rintro ⟨t, ht, hscore⟩
    obtain ⟨r0, hr0, -⟩ := dictKeys_mem ht
    have hne : (find_all_windows ws).isEmpty = false := by
      cases hfw : find_all_windows ws with
      | nil => rw [hfw] at hr0; cases hr0
      | cons a l => rfl
    unfold find_window
    simp only [hne, Bool.false_eq_true, if_false]
    have hsome : (extractOne scorer name (dictKeys (find_all_windows ws))
        threshold).isSome = true :=
      extractOneGo_isSome scorer name threshold (dictKeys (find_all_windows ws)) none
        (Or.inl ⟨t, ht, hscore⟩)
    cases hx : extractOne scorer name (dictKeys (find_all_windows ws)) threshold with
    | none => rw [hx] at hsome; cases hsome
    | some p =>
      obtain ⟨t', s'⟩ := p
      obtain ⟨-, -, hmem', -, -⟩ :=
        extractOneGo_some scorer name threshold (dictKeys (find_all_windows ws))
          none t' s' hx (by intro bc bs h'; cases h')
      have ht' : t' ∈ dictKeys (find_all_windows ws) := by
        rcases hmem' with h' | h'
        · cases h'
        · exact h'
      have hl := dictLookup_isSome (dictKeys_mem ht')
      cases hlk : dictLookup (find_all_windows ws) t' with
      | none => rw [hlk] at hl; cases hl
      | some r => exact ⟨r, hlk⟩

/-- Witness for C4 at a concrete scorer, window set, query and threshold:
a key meets the threshold, so the resolver returns a record — concretely
the Calculator record — and the theorem's characterisation holds of it. -/
theorem find_window_characterisation_witness :
    (∃ t ∈ dictKeys (find_all_windows sampleWins), 70 ≤ wratio "Calculator" t) ∧
    (∃ r, find_window wratio sampleWins "Calculator" 70 = some r) ∧
    find_window wratio sampleWins "Calculator" 70 =
      some ⟨14, "Calculator", ⟨2, 4, 300, 200⟩⟩ ∧
    ((⟨14, "Calculator", ⟨2, 4, 300, 200⟩⟩ : WindowRecord) ∈ find_all_windows sampleWins ∧
      dictLookup (find_all_windows sampleWins) "Calculator" =
        some ⟨14, "Calculator", ⟨2, 4, 300, 200⟩⟩ ∧
      70 ≤ wratio "Calculator" "Calculator" ∧
      ∀ t ∈ dictKeys (find_all_windows sampleWins),
        wratio "Calculator" t ≤ wratio "Calculator" "Calculator") :=
  ⟨by decide,
   (find_window_characterisation wratio sampleWins "Calculator" 70).2.2.2.2 (by decide),
   by decide,
   (find_window_characterisation wratio sampleWins "Calculator" 70).2.2.1
     ⟨14, "Calculator", ⟨2, 4, 300, 200⟩⟩ (by decide)⟩

/-- The OS window whose title differs from the C5 counterexample's query
only in capitalisation. -/
def cexWin : OSWin := ⟨1, true, true, "Notepad", some ⟨0, 0, 100, 100⟩⟩

/-- C5 counterexample: the claim says threshold 100 with no exactly-equal
title always yields no match; but the scoring is case-insensitive, so the
query `"notepad"` against the single title `"Notepad"` — not exactly equal
to it — still resolves at threshold 100. -/
theorem threshold100_case_insensitive_match :
    ((find_all_windows [cexWin]).map WindowRecord.title).contains "notepad" = false ∧
    find_window wratio [cexWin] "notepad" 100 =
      some ⟨1, "Notepad", ⟨0, 0, 100, 100⟩⟩ := by decide

/-- C5 amended: if no enumerated title equals the query after the scorer's
case-insensitive normalisation (lower-casing, non-alphanumeric stripping),
then resolving with threshold 100 yields no match. -/
theorem threshold100_no_normalised_match (ws : List OSWin) (name : String)
    (h : ∀ r ∈ find_all_windows ws, full_process r.title ≠ full_process name) :
    find_window wratio ws name 100 = none := by
  unfold find_window
  by_cases he : (find_all_windows ws).isEmpty
  · rw [if_pos he]
  · rw [if_neg he]
    cases hx : extractOne wratio name (dictKeys (find_all_windows ws)) 100 with
    | none => rfl
    | some p =>
      obtain ⟨t, s⟩ := p
      exfalso
      obtain ⟨hs, hcut, hmem', -, -⟩ :=
        extractOneGo_some wratio name 100 (dictKeys (find_all_windows ws))
          none t s hx (by intro bc bs h'; cases h')
      have ht : t ∈ dictKeys (find_all_windows ws) := by
        rcases hmem' with h' | h'
        · cases h'
        · exact h'
      obtain ⟨r, hrmem, hrt⟩ := dictKeys_mem ht
      have h100 : wratio name t = 100 :=
        le_antisymm (wratio_le_100 _ _) (hs ▸ hcut)
      exact h r hrmem (by rw [hrt]; exact (wratio_eq_100 h100).symm)

/-- A visible window whose title shares nothing with the query `"zebra"`. -/
def calcWin : OSWin := ⟨2, true, true, "Calculator", some ⟨0, 0, 10, 10⟩⟩

/-- Witness for the amended C5 at a concrete window set and query. -/
theorem threshold100_no_normalised_match_witness :
    (∀ r ∈ find_all_windows [calcWin], full_process r.title ≠ full_process "zebra") ∧
    find_window wratio [calcWin] "zebra" 100 = none :=
  ⟨by decide, threshold100_no_normalised_match [calcWin] "zebra" (by decide)⟩

/-- A capture environment in which the window is healthy and every OS and
library call succeeds. -/
def envAllOk : CapEnv where
  isWindow := true
  isVisible := true
  isIconic := false
  rect := ⟨0, 0, 800, 600⟩
  getWindowDC_ok := true
  createDCFromHandle_ok := true
  createCompatibleDC_ok := true
  createBitmap_ok := true
  createCompatibleBitmap_ok := true
  selectObject_ok := true
  printWindow := some 1
  getInfo_ok := true
  getBitmapBits_ok := true
  frombuffer_ok := true
  deleteObject_ok := true
  deleteDC_save_ok := true
  deleteDC_mfc_ok := true
  releaseDC_ok := true
  directSave_ok := true
  setForeground_ok := true
  grab := .image 800 600
  fallbackSave_ok := true
  grabExnMsg := "screen grab failed"
  fallbackSaveExnMsg := "cannot write file"

/-- C2: whenever the handle is not a valid visible window, or the window
is minimized, or the computed width or height is ≤ 0, `capture_window`
fails with a `ValueError` (the CaptureError), and no OS rendering
primitive — neither `PrintWindow` nor `ImageGrab.grab` — is ever
invoked on such a run. -/
theorem capture_precondition_errors (env : CapEnv)
    (h : ¬(env.isWindow = true ∧ env.isVisible = true) ∨ env.isIconic = true ∨
         env.rect.right - env.rect.left ≤ 0 ∨ env.rect.bottom - env.rect.top ≤ 0) :
    (∃ msg, (capture_window env).1 = CapResult.err msg) ∧
    Ev.printWindowCall ∉ (capture_window env).2 ∧
    Ev.grabCall ∉ (capture_window env).2 := by
  have key : ∃ msg, capture_window env = (CapResult.err msg, []) := by
    unfold capture_window
    by_cases h1 : env.isWindow = true ∧ env.isVisible = true
    · by_cases h2 : env.isIconic = true
      · exact ⟨"Window is minimized - cannot capture", by simp [h1.1, h1.2, h2]⟩
      · have h2' : env.isIconic = false := by
          revert h2
          cases env.isIconic <;> simp
        have hd : env.rect.right - env.rect.left ≤ 0 ∨ env.rect.bottom - env.rect.top ≤ 0 := by
          rcases h with h | h | h | h
          · exact absurd h1 h
          · exact absurd h h2
          · exact Or.inl h
          · exact Or.inr h
        refine ⟨"Invalid window dimensions: " ++ toString (env.rect.right - env.rect.left) ++
          "x" ++ toString (env.rect.bottom - env.rect.top), ?_⟩
        rcases hd with h' | h'
        · have h'' : env.rect.right ≤ env.rect.left := by omega
          simp [h1.1, h1.2, h2', h', h'']
        · have h'' : env.rect.bottom ≤ env.rect.top := by omega
          simp [h1.1, h1.2, h2', h', h'']
    · rcases not_and_or.mp h1 with h' | h'
      · have h'' : env.isWindow = false := by
          revert h'
          cases env.isWindow <;> simp
        exact ⟨"Window is not visible or invalid handle", by simp [h'']⟩
      · have h'' : env.isVisible = false := by
          revert h'
          cases env.isVisible <;> simp
        exact ⟨"Window is not visible or invalid handle", by simp [h'']⟩
  obtain ⟨msg, hmsg⟩ := key
  rw [hmsg]
  exact ⟨⟨msg, rfl⟩, by simp, by simp⟩

/-- The environment of C2's witness: a healthy visible window whose
reported rectangle has zero width. -/
def envDimBad : CapEnv := { envAllOk with rect := ⟨50, 50, 50, 650⟩ }

/-- Witness for C2: a zero-width window makes the capture fail with no
rendering primitive invoked. -/
theorem capture_precondition_errors_witness :
    (¬(envDimBad.isWindow = true ∧ envDimBad.isVisible = true) ∨ envDimBad.isIconic = true ∨
      envDimBad.rect.right - envDimBad.rect.left ≤ 0 ∨
      envDimBad.rect.bottom - envDimBad.rect.top ≤ 0) ∧
    ((∃ msg, (capture_window envDimBad).1 = CapResult.err msg) ∧
      Ev.printWindowCall ∉ (capture_window envDimBad).2 ∧
      Ev.grabCall ∉ (capture_window envDimBad).2) :=
  ⟨by decide, capture_precondition_errors envDimBad (by decide)⟩

/-- C3: on a run past the validation checks whose direct tier does not
return, the fallback grab is attempted exactly once (and `PrintWindow`
itself at most once — there is no further tier), and any resulting error
is a `ValueError` wrapping the underlying cause. -/
theorem direct_failure_single_fallback (env : CapEnv)
    (hW : env.isWindow = true) (hV : env.isVisible = true) (hI : env.isIconic = false)
    (hw : 0 < env.rect.right - env.rect.left) (hh : 0 < env.rect.bottom - env.rect.top)
    (hfail : (directTier env).1 = false) :
    List.count Ev.grabCall (capture_window env).2 = 1 ∧
    List.count Ev.printWindowCall (capture_window env).2 ≤ 1 ∧
    ∀ msg, (capture_window env).1 = CapResult.err msg →
      ∃ cause, msg = "Failed to capture window: " ++ cause := by
  have hcw := capture_window_after_checks env hW hV hI hw hh
  rw [hfail] at hcw
  simp only [Bool.false_eq_true, if_false] at hcw
  rw [hcw]
  refine ⟨?_, ?_, ?_⟩
  · simp only [List.count_cons, List.count_append]
    rw [List.count_eq_zero.mpr (directTier_no_grab env), regionFallback_grab_count env]
    rfl
  · simp only [List.count_cons, List.count_append]
    rw [List.count_eq_zero.mpr (regionFallback_no_print env)]
    have := directTier_print_count env
    have hne : (Ev.printWindowCall == Ev.mkdirParents) = false := by rfl
    simp [hne]
    omega
  · intro msg hmsg
    exact regionFallback_err_wraps env msg hmsg

/-- The environment of the C3 and C10 witnesses: `PrintWindow` reports
failure and the fallback grab raises, so both tiers fail. -/
def envBothFail : CapEnv := { envAllOk with printWindow := some 0, grab := .throws }

/-- Witness for C3: with `PrintWindow` reporting failure and the grab
raising, the grab is attempted exactly once and the error wraps the
cause. -/
theorem direct_failure_single_fallback_witness :
    (directTier envBothFail).1 = false ∧
    List.count Ev.grabCall (capture_window envBothFail).2 = 1 ∧
    (capture_window envBothFail).1 =
      CapResult.err ("Failed to capture window: " ++ "screen grab failed") :=
  ⟨by decide,
   (direct_failure_single_fallback envBothFail rfl rfl rfl (by decide) (by decide)
      (by decide)).1,
   by decide⟩

/-- The environment of C6's counterexample: `CreateCompatibleDC` raises
after the window DC and the MFC DC are already acquired. -/
def envLeak : CapEnv := { envAllOk with createCompatibleDC_ok := false }

/-- C6 counterexample: the claim says every OS graphics resource acquired
in the direct tier is released on every exit path including exceptions;
but when `CreateCompatibleDC` raises, the window DC and the MFC DC have
been acquired and the run never releases either. -/
theorem direct_tier_leak_on_exception :
    Ev.acquire "hwndDC" ∈ (capture_window envLeak).2 ∧
    Ev.release "hwndDC" ∉ (capture_window envLeak).2 ∧
    Ev.acquire "mfcDC" ∈ (capture_window envLeak).2 ∧
    Ev.release "mfcDC" ∉ (capture_window envLeak).2 := by decide

/-- C6 amended: on the direct tier's exit paths that reach the cleanup
block — success and `PrintWindow`-reported failure, with the render steps
after a successful `PrintWindow` not raising and the four release calls
themselves succeeding — every acquired resource is released before the
tier is left; on an exception exit the resources acquired before the
raising call leak (an accepted risk per the error-handling design). -/
theorem direct_tier_releases_when_no_exception (env : CapEnv)
    (hacq : env.getWindowDC_ok = true ∧ env.createDCFromHandle_ok = true ∧
      env.createCompatibleDC_ok = true ∧ env.createBitmap_ok = true ∧
      env.createCompatibleBitmap_ok = true ∧ env.selectObject_ok = true)
    (hpw : env.printWindow.isSome = true)
    (hrender : ∀ r : Int, env.printWindow = some r → r ≠ 0 →
      env.getInfo_ok = true ∧ env.getBitmapBits_ok = true ∧ env.frombuffer_ok = true)
    (hclean : env.deleteObject_ok = true ∧ env.deleteDC_save_ok = true ∧
      env.deleteDC_mfc_ok = true ∧ env.releaseDC_ok = true) :
    ∀ res, Ev.acquire res ∈ (directTier env).2 → Ev.release res ∈ (directTier env).2 := by
  obtain ⟨hA, hB, hC, hD, hE, hF⟩ := hacq
  obtain ⟨hc1, hc2, hc3, hc4⟩ := hclean
  have hcs : cleanupSeq env =
      (true, [.release "saveBitMap", .release "saveDC", .release "mfcDC",
              .release "hwndDC"]) := by
    simp [cleanupSeq, hc1, hc2, hc3, hc4]
  cases hpws : env.printWindow with
  | none => rw [hpws] at hpw; cases hpw
  | some r =>
    have htr : (directTier env).2 = preRenderTrace ++ (cleanupSeq env).2 ∨
        (directTier env).2 = preRenderTrace ++ (cleanupSeq env).2 ++ [Ev.save] := by
      by_cases hr : r = 0
      · subst hr
        left
        simp [directTier, hA, hB, hC, hD, hE, hF, hpws, hcs]
      · obtain ⟨hg1, hg2, hg3⟩ := hrender r hpws hr
        by_cases hs : env.directSave_ok = true
        · right
          simp [directTier, hA, hB, hC, hD, hE, hF, hpws, hr, hg1, hg2, hg3, hcs, hs]
        · left
          rw [Bool.not_eq_true] at hs
          simp [directTier, hA, hB, hC, hD, hE, hF, hpws, hr, hg1, hg2, hg3, hcs, hs]
    intro res hres
    rcases htr with htr | htr
    · rw [htr, hcs] at hres ⊢
      simp [preRenderTrace] at hres
      rcases hres with rfl | rfl | rfl | rfl <;> simp [preRenderTrace]
    · rw [htr, hcs] at hres ⊢
      simp [preRenderTrace] at hres
      rcases hres with rfl | rfl | rfl | rfl <;> simp [preRenderTrace]

/-- Witness for the amended C6: in the all-succeeding environment the
window DC is both acquired and released by the direct tier. -/
theorem direct_tier_releases_witness :
    Ev.acquire "hwndDC" ∈ (directTier envAllOk).2 ∧
    Ev.release "hwndDC" ∈ (directTier envAllOk).2 :=
  ⟨by decide,
   direct_tier_releases_when_no_exception envAllOk ⟨rfl, rfl, rfl, rfl, rfl, rfl⟩ rfl
     (fun r hr hne => by
       rw [show envAllOk.printWindow = some 1 from rfl] at hr
       injection hr with h
       subst h
       exact ⟨rfl, rfl, rfl⟩)
     ⟨rfl, rfl, rfl, rfl⟩ "hwndDC" (by decide)⟩

/-- C10: on every run past the validation checks — valid visible
non-minimized window with positive dimensions — the very first observable
effect is the creation of the destination's parent directories, before
either capture tier acts; in particular the directories exist even when
the run later fails. -/
theorem mkdir_precedes_capture_tiers (env : CapEnv)
    (hW : env.isWindow = true) (hV : env.isVisible = true) (hI : env.isIconic = false)
    (hw : 0 < env.rect.right - env.rect.left) (hh : 0 < env.rect.bottom - env.rect.top) :
    (capture_window env).2.head? = some Ev.mkdirParents := by
  rw [capture_window_after_checks env hW hV hI hw hh]
  by_cases hdt : (directTier env).1 = true <;> simp [hdt]

/-- Witness for C10: in the environment where both tiers fail the run
raises, yet the directory-creation effect already heads its trace. -/
theorem mkdir_precedes_capture_tiers_witness :
    (capture_window envBothFail).2.head? = some Ev.mkdirParents ∧
    (capture_window envBothFail).1 =
      CapResult.err ("Failed to capture window: " ++ "screen grab failed") :=
  ⟨mkdir_precedes_capture_tiers envBothFail rfl rfl rfl (by decide) (by decide), by decide⟩

/-- The parsed arguments of C8's counterexample: no positional window
name, no `--list`, an in-range threshold. -/
def argsNoName : Args := ⟨none, false, none, 70, false⟩

/-- C8 counterexample: the claim says a missing window name is reported as
an error to stderr; the code prints the argparse help to stdout and exits
1 with nothing on stderr (and no window query). -/
theorem missing_name_reports_to_stdout :
    main [] argsNoName = MainOutcome.exited 1 [MainEv.helpStdout] ∧
    hasStderr (mainEvents (main [] argsNoName)) = false := by decide

/-- C8 amended: for invocations without `--list`, a missing (falsy) window
name or an out-of-range threshold makes `main` exit with code 1 before any
window query; the missing name is reported as argparse help on stdout,
and the threshold violation as an error line on stderr. -/
theorem argument_validation_before_query (ws : List OSWin) (args : Args)
    (hl : args.list = false)
    (h : optStrFalsy args.window_name = true ∨ args.threshold < 0 ∨ 100 < args.threshold) :
    ∃ evs, main ws args = MainOutcome.exited 1 evs ∧ MainEv.windowQuery ∉ evs ∧
      (optStrFalsy args.window_name = true → evs = [MainEv.helpStdout]) ∧
      (optStrFalsy args.window_name = false →
        evs = [MainEv.stderrLine "Error: Threshold must be between 0 and 100"]) := by
  unfold main
  rw [hl]
  simp only [Bool.false_eq_true, if_false]
  by_cases hn : optStrFalsy args.window_name = true
  · rw [if_pos hn]
    refine ⟨[MainEv.helpStdout], rfl, by simp, fun _ => rfl, fun hfalse => ?_⟩
    rw [hn] at hfalse
    cases hfalse
  · rw [if_neg hn]
    have hn' : optStrFalsy args.window_name = false := by
      revert hn
      cases optStrFalsy args.window_name <;> simp
    have hth : args.threshold < 0 ∨ 100 < args.threshold := by
      rcases h with h | h | h
      · exact absurd h hn
      · exact Or.inl h
      · exact Or.inr h
    have hcond : (decide (args.threshold < 0) || decide (100 < args.threshold)) = true := by
      rcases hth with h' | h' <;> simp [h']
    rw [if_pos hcond]
    refine ⟨[MainEv.stderrLine "Error: Threshold must be between 0 and 100"], rfl,
      by simp, fun htrue => ?_, fun _ => rfl⟩
    rw [hn'] at htrue
    cases htrue

/-- The parsed arguments of C8's witness: `appsnap Notepad --threshold
150`. -/
def argsT150 : Args := ⟨some "Notepad", false, none, 150, false⟩

/-- Witness for the amended C8: threshold 150 with a window name exits 1
with the stderr range error and no window query. -/
theorem argument_validation_before_query_witness :
    argsT150.list = false ∧
    (optStrFalsy argsT150.window_name = true ∨ argsT150.threshold < 0 ∨
      100 < argsT150.threshold) ∧
    ∃ evs, main [] argsT150 = MainOutcome.exited 1 evs ∧ MainEv.windowQuery ∉ evs ∧
      (optStrFalsy argsT150.window_name = true → evs = [MainEv.helpStdout]) ∧
      (optStrFalsy argsT150.window_name = false →
        evs = [MainEv.stderrLine "Error: Threshold must be between 0 and 100"]) :=
  ⟨rfl, by decide, argument_validation_before_query [] argsT150 rfl (by decide)⟩

end Appsnap
